import Mathlib

/-!
Verification of the polling/normalization core of the
hass-yale_smart_alarm_v2 integration, a shallow embedding of
custom_components/yale_smart_alarm_v2/coordinator.py.

Modelling conventions:
- Python dict records become Lean structures; the derived keys that the
  normalizer writes in place (the keys named by the strings "_state" and
  "_state2") become Option-valued fields that start as none on wire input.
- Timestamps (values of datetime.strptime) are modelled as integers
  (seconds); timedelta subtraction of m minutes is subtraction of 60 * m.
  The strptime parse is an order-embedding of well-formed time strings, so
  all comparisons in the code are preserved.
- Fallible Python operations (float(), int(x, 16)) are modelled as
  Option/Except valued parsers over plain decimal / hex digit strings,
  which is the shape of the wire values this integration receives.
- In-place mutation of the raw bundle is made explicit: the normalizer
  returns the snapshot together with the bundle as left after mutation.
-/

/-- A Python exception value escaping from normalization: float() and
int(x, 16) raise ValueError on unparseable input. -/
inductive PyErr where
  | valueError (msg : String)
deriving DecidableEq, Repr

/-- A derived device state: the normalizer stores either a string
(lock / contact / smoke states) or the float(status_temp) number. -/
inductive StateV where
  | str (s : String)
  | rat (q : ℚ)
deriving DecidableEq, Repr

/-- One raw device record of updates cycle device_status, with the two
derived keys the normalizer may attach.  extra models any further input
keys of the record, which the normalizer never touches. -/
structure Device where
  type : String
  area : String
  address : String
  status1 : String
  minigw_lock_status : Option String
  status_temp : String
  extra : List (String × String)
  _state : Option StateV
  _state2 : Option String
deriving DecidableEq, Repr

/-- One entry of the HISTORY list.  time is the strptime-parsed
timestamp (see the modelling conventions). -/
structure HistItem where
  time : Int
  type : String
  area : String
  event_type : String
deriving DecidableEq, Repr

/-- The CYCLE part of the raw bundle.  The name Cycle is taken by the
library, hence CycleData. -/
structure CycleData where
  device_status : List Device
deriving DecidableEq, Repr

/-- The dict returned by get_updates. -/
structure Updates where
  arm_status : String
  cycle : CycleData
  status : String
  online : String
  panel_info : String
  history : List HistItem
  update_timestamp : Int
deriving DecidableEq, Repr

/-- The dict returned by the normalizer, cached as the latest snapshot. -/
structure Snapshot where
  alarm : String
  locks : List Device
  door_windows : List Device
  temperature_sensors : List Device
  smoke_sensors : List Device
  status : String
  online : String
  door_sensor_map : List (String × StateV)
  lock_map : List (String × StateV)
  temperature_map : List (String × StateV)
  smoke_map : List (String × StateV)
  panel_info : String
deriving DecidableEq, Repr

/-- Python substring containment: pat in s. -/
def strContains (s pat : String) : Bool :=
  decide (List.IsInfix pat.toList s.toList)

/-- Value of a single hexadecimal digit character. -/
def hexVal (c : Char) : Option Nat :=
  if 0x30 ≤ c.toNat ∧ c.toNat ≤ 0x39 then some (c.toNat - 0x30)
  else if 0x61 ≤ c.toNat ∧ c.toNat ≤ 0x66 then some (c.toNat - 0x57)
  else if 0x41 ≤ c.toNat ∧ c.toNat ≤ 0x46 then some (c.toNat - 0x37)
  else none

/-- Python int(s, 16) on a plain string of hex digits: none models the
ValueError on an empty or non-hex string. -/
def pyIntHex (s : String) : Option Nat :=
  if s.toList.isEmpty then none
  else
    s.toList.foldl
      (fun acc c =>
        match acc, hexVal c with
        | some a, some v => some (16 * a + v)
        | _, _ => none)
      (some 0)

/-- Python str(x or 0) for the minigw_lock_status field: None and the
empty string are falsy and become the string 0. -/
def pyStrOrZero : Option String → String
  | none => "0"
  | some s => if s = "" then "0" else s

/-- Value of a string of decimal digit characters. -/
def digitsToNat (l : List Char) : Nat :=
  l.foldl (fun a c => 10 * a + (c.toNat - 0x30)) 0

/-- Unsigned part of a Python float literal: digits with an optional
single decimal point, at least one digit overall. -/
def parseUnsigned (cs : List Char) : Option ℚ :=
  let intPart := cs.takeWhile Char.isDigit
  let rest := cs.dropWhile Char.isDigit
  match rest with
  | [] => if intPart.isEmpty then none else some (digitsToNat intPart : ℚ)
  | c :: frac =>
    if c = '.' ∧ frac.all Char.isDigit ∧ (¬ intPart.isEmpty ∨ ¬ frac.isEmpty) then
      some ((digitsToNat intPart : ℚ) + (digitsToNat frac : ℚ) / ((10 : ℚ) ^ frac.length))
    else none

/-- Python float(s) on a plain decimal literal with an optional sign:
none models the ValueError on unparseable input. -/
def pyFloat (s : String) : Option ℚ :=
  match s.toList with
  | '-' :: cs => (parseUnsigned cs).map (fun q => -q)
  | '+' :: cs => parseUnsigned cs
  | cs => parseUnsigned cs

/-- The loop body of device_on_in_updates_history over the history list
(coordinator.py lines 47 to 60), with the device fields it reads passed
as arguments.  accepted is update_timestamp - timedelta(minutes=minutes). -/
def scanHistory (accepted : Int) (dtype darea enabled disabled : String) :
    List HistItem → Bool
  | [] => false
  | h :: rest =>
    if h.time < accepted then false
    else if h.type ≠ dtype then scanHistory accepted dtype darea enabled disabled rest
    else if h.area ≠ darea then scanHistory accepted dtype darea enabled disabled rest
    else if h.event_type = disabled then false
    else if h.event_type = enabled then true
    else scanHistory accepted dtype darea enabled disabled rest

/-- coordinator.py lines 43 to 61: whether a qualifying enabled event for
this device is the most recent decisive history event inside the window. -/
def device_on_in_updates_history (device : Device) (updates : Updates)
    (enabled_type disabled_type : String) (minutes : Int) : Bool :=
  scanHistory (updates.update_timestamp - 60 * minutes)
    device.type device.area enabled_type disabled_type updates.history

/-- The lock branch of _async_update_data (lines 76 to 126): from the
minigw_lock_status string and the status1 flags, the derived pair of
_state and (when assigned) _state2. -/
def lockDerived (lock_status_str : Option String) (status1 : String) :
    Except PyErr (String × Option String) :=
  match pyIntHex (pyStrOrZero lock_status_str) with
  | none => Except.error (PyErr.valueError "invalid literal for int with base 16")
  | some lock_status =>
    if lock_status = 0 ∧ strContains status1 "device_status.lock" then
      Except.ok ("locked", some "unknown")
    else if lock_status = 0 ∧ strContains status1 "device_status.unlock" then
      Except.ok ("unlocked", some "unknown")
    else if lock_status ≠ 0 ∧
        (strContains status1 "device_status.lock" ∨ strContains status1 "device_status.unlock") ∧
        (lock_status &&& 16 = 16) ∧ (lock_status &&& 1 = 1) then
      Except.ok ("locked", some "closed")
    else if lock_status ≠ 0 ∧
        (strContains status1 "device_status.lock" ∨ strContains status1 "device_status.unlock") ∧
        (lock_status &&& 16 = 16) ∧ ¬ (lock_status &&& 1 = 1) then
      Except.ok ("unlocked", some "closed")
    else if lock_status ≠ 0 ∧
        (strContains status1 "device_status.lock" ∨ strContains status1 "device_status.unlock") ∧
        ¬ (lock_status &&& 16 = 16) then
      Except.ok ("unlocked", some "open")
    else
      Except.ok ("unavailable", none)

/-- The in-place mutation of a lock device record: _state is always
written, _state2 only on the first five branches. -/
def classifyLock (d : Device) : Except PyErr Device :=
  match lockDerived d.minigw_lock_status d.status1 with
  | Except.error e => Except.error e
  | Except.ok p =>
    Except.ok { d with
      _state := some (StateV.str p.1),
      _state2 := match p.2 with | some t => some t | none => d._state2 }

/-- The door contact branch of _async_update_data (lines 128 to 139). -/
def classifyContact (d : Device) : Device :=
  if strContains d.status1 "device_status.dc_close" then
    { d with _state := some (StateV.str "closed") }
  else if strContains d.status1 "device_status.dc_open" then
    { d with _state := some (StateV.str "open") }
  else
    { d with _state := some (StateV.str "unavailable") }

/-- The temperature branch of _async_update_data (lines 140 to 144):
float(status_temp), a ValueError escaping on unparseable input. -/
def classifyTemperature (d : Device) : Except PyErr Device :=
  match pyFloat d.status_temp with
  | none => Except.error (PyErr.valueError "could not convert string to float")
  | some q => Except.ok { d with _state := some (StateV.rat q) }

/-- The smoke detector branch of _async_update_data (lines 145 to 158). -/
def classifySmoke (enabled disabled : String) (updates : Updates) (d : Device) : Device :=
  if device_on_in_updates_history d updates enabled disabled 3 then
    { d with _state := some (StateV.str "on") }
  else
    { d with _state := some (StateV.str "off") }

/-- Which category list a classified device is appended to. -/
inductive Cat where
  | lock
  | door_window
  | temperature
  | smoke
deriving DecidableEq, Repr

/-- The type tag that routes a device into each category. -/
def catTag : Cat → String
  | Cat.lock => "device_type.door_lock"
  | Cat.door_window => "device_type.door_contact"
  | Cat.temperature => "device_type.temperature_sensor"
  | Cat.smoke => "device_type.smoke_detector"

/-- One iteration of the loop over device_status (lines 73 to 158): the
mutated record and the category it is appended to, none when the type tag
is unrecognized and the loop falls through without appending. -/
def processDevice (enabled disabled : String) (updates : Updates) (d : Device) :
    Except PyErr (Device × Option Cat) :=
  if d.type = "device_type.door_lock" then
    match classifyLock d with
    | Except.error e => Except.error e
    | Except.ok d2 => Except.ok (d2, some Cat.lock)
  else if d.type = "device_type.door_contact" then
    Except.ok (classifyContact d, some Cat.door_window)
  else if d.type = "device_type.temperature_sensor" then
    match classifyTemperature d with
    | Except.error e => Except.error e
    | Except.ok d2 => Except.ok (d2, some Cat.temperature)
  else if d.type = "device_type.smoke_detector" then
    Except.ok (classifySmoke enabled disabled updates d, some Cat.smoke)
  else
    Except.ok (d, none)

/-- The whole device loop; the first Python exception aborts it. -/
def normalizeLoop (enabled disabled : String) (updates : Updates) :
    List Device → Except PyErr (List (Device × Option Cat))
  | [] => Except.ok []
  | d :: rest =>
    match processDevice enabled disabled updates d with
    | Except.error e => Except.error e
    | Except.ok p =>
      match normalizeLoop enabled disabled updates rest with
      | Except.error e => Except.error e
      | Except.ok ps => Except.ok (p :: ps)

/-- The per-category list accumulated by the loop, in iteration order. -/
def catFilter (c : Cat) (ps : List (Device × Option Cat)) : List Device :=
  ps.filterMap (fun p => if p.2 = some c then some p.1 else none)

/-- Python dict insertion: an existing key keeps its position and gets the
new value, a new key is appended. -/
def dictInsert (m : List (String × StateV)) (k : String) (v : StateV) :
    List (String × StateV) :=
  if m.any (fun p => p.1 = k) then
    m.map (fun p => if p.1 = k then (k, v) else p)
  else
    m ++ [(k, v)]

/-- The keys of a modelled dict, in order. -/
def dictKeys (m : List (String × StateV)) : List String :=
  m.map Prod.fst

/-- The _state read by the map comprehensions (lines 160 to 165).  The
default is never reached for normalizer output, where _state is always
set (claim C6). -/
def stateOf (d : Device) : StateV :=
  d._state.getD (StateV.str "")

/-- One of the four address to state dict comprehensions. -/
def buildMap (l : List Device) : List (String × StateV) :=
  l.foldl (fun m d => dictInsert m d.address (stateOf d)) []

/-- The normalization part of _async_update_data (lines 68 to 180): the
snapshot together with the raw bundle as left after in-place mutation. -/
def normalizeUpdates (enabled disabled : String) (updates : Updates) :
    Except PyErr (Snapshot × Updates) :=
  match normalizeLoop enabled disabled updates updates.cycle.device_status with
  | Except.error e => Except.error e
  | Except.ok ps =>
    let locks := catFilter Cat.lock ps
    let door_windows := catFilter Cat.door_window ps
    let sensors_temperature := catFilter Cat.temperature ps
    let sensors_smoke := catFilter Cat.smoke ps
    Except.ok
      ({ alarm := updates.arm_status,
         locks := locks,
         door_windows := door_windows,
         temperature_sensors := sensors_temperature,
         smoke_sensors := sensors_smoke,
         status := updates.status,
         online := updates.online,
         door_sensor_map := buildMap door_windows,
         lock_map := buildMap locks,
         temperature_map := buildMap sensors_temperature,
         smoke_map := buildMap sensors_smoke,
         panel_info := updates.panel_info },
       { updates with cycle := { device_status := ps.map Prod.fst } })

/-- Modelled from the spec: the yalesmartalarmclient library and const.py
with YALE_BASE_ERRORS are not under src.  Per the spec every
client-library failure is either an AuthenticationError or one of the
base errors that get_updates reclassifies as transient. -/
inductive ClientError where
  | authenticationError
  | yaleBaseError
deriving DecidableEq, Repr

/-- The two failure kinds get_updates may raise: ConfigEntryAuthFailed
and UpdateFailed of the host framework. -/
inductive FetchFailure where
  | configEntryAuthFailed
  | updateFailed
deriving DecidableEq, Repr

/-- Modelled from the spec: the client session object, constructed from
the configured credentials; its behaviour is opaque here. -/
structure YaleSmartAlarmClient where
  username : String
  password : String
deriving DecidableEq, Repr

/-- Modelled from the spec: the structured bundle returned by the client
get_all call, with the keys get_updates extracts.  token_time holds the
strptime-parsed AUTH CHECK token time. -/
structure AllData where
  cycle : CycleData
  history : List HistItem
  status : String
  online : String
  panel_info : String
  token_time : Int
deriving DecidableEq, Repr

/-- The try block over the two client data calls (lines 195 to 209):
get_armed_status runs first, get_all only if it succeeded; each
AuthenticationError becomes ConfigEntryAuthFailed and each base error
becomes UpdateFailed. -/
def get_updates_calls (armResult : Except ClientError String)
    (getAllResult : Except ClientError AllData) : Except FetchFailure Updates :=
  match armResult with
  | Except.error ClientError.authenticationError => Except.error FetchFailure.configEntryAuthFailed
  | Except.error ClientError.yaleBaseError => Except.error FetchFailure.updateFailed
  | Except.ok arm_status =>
    match getAllResult with
    | Except.error ClientError.authenticationError => Except.error FetchFailure.configEntryAuthFailed
    | Except.error ClientError.yaleBaseError => Except.error FetchFailure.updateFailed
    | Except.ok data =>
      Except.ok
        { arm_status := arm_status,
          cycle := data.cycle,
          status := data.status,
          online := data.online,
          panel_info := data.panel_info,
          history := data.history,
          update_timestamp := data.token_time }

/-- coordinator.py lines 182 to 219: the fetch step.  yale is the session
field, constructResult the outcome of constructing the client when the
session is absent, armResult and getAllResult the outcomes of the two
data calls. -/
def get_updates (yale : Option YaleSmartAlarmClient)
    (constructResult : Except ClientError YaleSmartAlarmClient)
    (armResult : Except ClientError String)
    (getAllResult : Except ClientError AllData) : Except FetchFailure Updates :=
  match yale, constructResult with
  | none, Except.error ClientError.authenticationError =>
    Except.error FetchFailure.configEntryAuthFailed
  | none, Except.error ClientError.yaleBaseError =>
    Except.error FetchFailure.updateFailed
  | none, Except.ok _ => get_updates_calls armResult getAllResult
  | some _, _ => get_updates_calls armResult getAllResult

/-- The first client-library error the fetch step encounters, in the
order the code runs the fallible operations. -/
def callsFirstError (armResult : Except ClientError String)
    (getAllResult : Except ClientError AllData) : Option ClientError :=
  match armResult with
  | Except.error e => some e
  | Except.ok _ =>
    match getAllResult with
    | Except.error e => some e
    | Except.ok _ => none

/-- The first client-library error of a whole get_updates run, including
the lazy session construction. -/
def firstClientError (yale : Option YaleSmartAlarmClient)
    (constructResult : Except ClientError YaleSmartAlarmClient)
    (armResult : Except ClientError String)
    (getAllResult : Except ClientError AllData) : Option ClientError :=
  match yale, constructResult with
  | none, Except.error e => some e
  | none, Except.ok _ => callsFirstError armResult getAllResult
  | some _, _ => callsFirstError armResult getAllResult

/-- Everything a full refresh cycle can raise: the two classified fetch
failures, or a raw Python exception escaping the normalization loop. -/
inductive CycleError where
  | configEntryAuthFailed
  | updateFailed
  | pythonError (e : PyErr)
deriving DecidableEq, Repr

/-- The whole of _async_update_data (lines 63 to 180): the fetch step
followed by normalization; fetch failures propagate unchanged and a
Python exception in the loop escapes unreclassified. -/
def async_update_data (yale : Option YaleSmartAlarmClient)
    (constructResult : Except ClientError YaleSmartAlarmClient)
    (armResult : Except ClientError String)
    (getAllResult : Except ClientError AllData)
    (enabled disabled : String) : Except CycleError (Snapshot × Updates) :=
  match get_updates yale constructResult armResult getAllResult with
  | Except.error FetchFailure.configEntryAuthFailed => Except.error CycleError.configEntryAuthFailed
  | Except.error FetchFailure.updateFailed => Except.error CycleError.updateFailed
  | Except.ok updates =>
    match normalizeUpdates enabled disabled updates with
    | Except.error e => Except.error (CycleError.pythonError e)
    | Except.ok r => Except.ok r

/-! Helper lemmas about single-bit masks. -/

lemma and_sixteen_cases (v : Nat) : v &&& 16 = 16 ∨ v &&& 16 = 0 := by
  have h := Nat.and_two_pow v 4
  cases hb : v.testBit 4 <;> rw [hb] at h <;> norm_num at h <;> simp [h]

lemma and_one_cases (v : Nat) : v &&& 1 = 1 ∨ v &&& 1 = 0 := by
  have h := Nat.and_two_pow v 0
  cases hb : v.testBit 0 <;> rw [hb] at h <;> norm_num at h <;> simp [h]

lemma and_sixteen_ne (v : Nat) : v &&& 16 = 16 ↔ v &&& 16 ≠ 0 := by
  rcases and_sixteen_cases v with h | h <;> simp [h]

lemma and_one_ne (v : Nat) : v &&& 1 = 1 ↔ v &&& 1 ≠ 0 := by
  rcases and_one_cases v with h | h <;> simp [h]

/-- The decision table of the claim, written from its words: closed is
bit 4 set (value and 16 nonzero), locked is bit 0 set (value and 1
nonzero), six branches in priority order, first match wins; the none
secondary on the last branch means _state2 is left unset. -/
def lockDecisionTable (v : Nat) (status1 : String) : String × Option String :=
  if v = 0 ∧ strContains status1 "device_status.lock" then ("locked", some "unknown")
  else if v = 0 ∧ strContains status1 "device_status.unlock" then ("unlocked", some "unknown")
  else if v ≠ 0 ∧
      (strContains status1 "device_status.lock" ∨ strContains status1 "device_status.unlock") ∧
      (v &&& 16 ≠ 0) ∧ (v &&& 1 ≠ 0) then ("locked", some "closed")
  else if v ≠ 0 ∧
      (strContains status1 "device_status.lock" ∨ strContains status1 "device_status.unlock") ∧
      (v &&& 16 ≠ 0) ∧ ¬ (v &&& 1 ≠ 0) then ("unlocked", some "closed")
  else if v ≠ 0 ∧
      (strContains status1 "device_status.lock" ∨ strContains status1 "device_status.unlock") ∧
      ¬ (v &&& 16 ≠ 0) then ("unlocked", some "open")
  else ("unavailable", none)

/-- Claim C1: for every lock device, the normalizer parses
minigw_lock_status as a hexadecimal integer with absent or empty treated
as zero, derives closed and locked from bits 4 and 0, and assigns the
pair of _state and _state2 exactly by the six-branch priority decision
table, the last branch leaving _state2 unset. -/
theorem lock_decision_table_correct (d : Device) (v : Nat)
    (enabled disabled : String) (u : Updates)
    (htype : d.type = "device_type.door_lock")
    (hparse : pyIntHex (pyStrOrZero d.minigw_lock_status) = some v) :
    lockDerived d.minigw_lock_status d.status1 =
      Except.ok (lockDecisionTable v d.status1) ∧
    processDevice enabled disabled u d =
      Except.ok ({ d with
        _state := some (StateV.str (lockDecisionTable v d.status1).1),
        _state2 := match (lockDecisionTable v d.status1).2 with
          | some t => some t
          | none => d._state2 }, some Cat.lock) := by
  have h1 : lockDerived d.minigw_lock_status d.status1 =
      Except.ok (lockDecisionTable v d.status1) := by
    rw [lockDerived, hparse, lockDecisionTable]
    simp only [← and_sixteen_ne, ← and_one_ne]
    split_ifs <;> rfl
  refine ⟨h1, ?_⟩
  rw [processDevice, if_pos htype, classifyLock, h1]

/-- The contact state of the claim, written from its words: closed when
the status flags contain the closed marker, open when they contain the
open marker and not the closed marker, unavailable otherwise. -/
def contactStateTable (status1 : String) : String :=
  if strContains status1 "device_status.dc_close" then "closed"
  else if strContains status1 "device_status.dc_open" ∧
      ¬ strContains status1 "device_status.dc_close" then "open"
  else "unavailable"

/-- Claim C8: for every door or window contact device, the derived
_state is closed when the status flags contain the closed marker, open
when they contain the open marker and not the closed marker, and
unavailable when they contain neither. -/
theorem contact_state_correct (d : Device) (enabled disabled : String) (u : Updates)
    (htype : d.type = "device_type.door_contact") :
    classifyContact d = { d with _state := some (StateV.str (contactStateTable d.status1)) } ∧
    processDevice enabled disabled u d =
      Except.ok ({ d with _state := some (StateV.str (contactStateTable d.status1)) },
        some Cat.door_window) := by
  have h1 : classifyContact d =
      { d with _state := some (StateV.str (contactStateTable d.status1)) } := by
    rw [classifyContact, contactStateTable]
    by_cases hc : strContains d.status1 "device_status.dc_close" = true <;>
      by_cases ho : strContains d.status1 "device_status.dc_open" = true <;>
      simp [hc, ho]
  refine ⟨h1, ?_⟩
  have hne : ¬ d.type = "device_type.door_lock" := by rw [htype]; decide
  rw [processDevice, if_neg hne, if_pos htype, h1]

/-- An entry not older than the accepted window start: the scan does not
break on it (the comparison in the code is strict). -/
def inWindow (accepted : Int) (h : HistItem) : Prop :=
  ¬ h.time < accepted

/-- An entry matching the target device pair of type and area. -/
def histMatches (dtype darea : String) (h : HistItem) : Prop :=
  h.type = dtype ∧ h.area = darea

/-- A decisive entry of the claim: inside the window, matching the
device, and carrying the enabled or the disabled event code. -/
def decisiveEvent (accepted : Int) (dtype darea enabled disabled : String)
    (h : HistItem) : Prop :=
  inWindow accepted h ∧ histMatches dtype darea h ∧
    (h.event_type = enabled ∨ h.event_type = disabled)

/-- The active condition written from the claim words: scanning in
order, some entry is decisive with the enabled code, and every earlier
entry is neither older than the window start nor decisive. -/
def scanSpecActive (accepted : Int) (dtype darea enabled disabled : String)
    (l : List HistItem) : Prop :=
  ∃ l₁ h l₂, l = l₁ ++ h :: l₂ ∧ inWindow accepted h ∧ histMatches dtype darea h ∧
    h.event_type = enabled ∧
    ∀ h2 ∈ l₁, inWindow accepted h2 ∧
      ¬ decisiveEvent accepted dtype darea enabled disabled h2

lemma scanSpecActive_nil (accepted : Int) (dtype darea enabled disabled : String) :
    ¬ scanSpecActive accepted dtype darea enabled disabled [] := by
  rintro ⟨l₁, h, l₂, heq, -⟩
  cases l₁ <;> simp at heq

lemma scanSpecActive_cons_old (accepted : Int) (dtype darea enabled disabled : String)
    (h : HistItem) (rest : List HistItem) (hold : h.time < accepted) :
    ¬ scanSpecActive accepted dtype darea enabled disabled (h :: rest) := by
  rintro ⟨l₁, h3, l₂, heq, hwin, hm, hev, hall⟩
  cases l₁ with
  | nil =>
    injection heq with e1 e2
    exact hwin (e1 ▸ hold)
  | cons a l₁ =>
    injection heq with e1 e2
    subst e1
    exact (hall h (by simp)).1 hold

lemma scanSpecActive_cons_skip (accepted : Int) (dtype darea enabled disabled : String)
    (h : HistItem) (rest : List HistItem) (hwin : inWindow accepted h)
    (hnd : ¬ decisiveEvent accepted dtype darea enabled disabled h) :
    scanSpecActive accepted dtype darea enabled disabled (h :: rest) ↔
      scanSpecActive accepted dtype darea enabled disabled rest := by
  constructor
  · rintro ⟨l₁, h3, l₂, heq, hwin3, hm3, hev3, hall⟩
    cases l₁ with
    | nil =>
      injection heq with e1 e2
      subst e1
      exact absurd ⟨hwin3, hm3, Or.inl hev3⟩ hnd
    | cons a l₁ =>
      injection heq with e1 e2
      exact ⟨l₁, h3, l₂, e2, hwin3, hm3, hev3,
        fun x hx => hall x (List.mem_cons_of_mem a hx)⟩
  · rintro ⟨l₁, h3, l₂, heq, hwin3, hm3, hev3, hall⟩
    refine ⟨h :: l₁, h3, l₂, by rw [heq]; rfl, hwin3, hm3, hev3, ?_⟩
    intro x hx
    rcases List.mem_cons.mp hx with rfl | hx
    · exact ⟨hwin, hnd⟩
    · exact hall x hx

lemma scanSpecActive_cons_break (accepted : Int) (dtype darea enabled disabled : String)
    (h : HistItem) (rest : List HistItem)
    (hdec : decisiveEvent accepted dtype darea enabled disabled h)
    (hne : h.event_type ≠ enabled) :
    ¬ scanSpecActive accepted dtype darea enabled disabled (h :: rest) := by
  rintro ⟨l₁, h3, l₂, heq, hwin3, hm3, hev3, hall⟩
  cases l₁ with
  | nil =>
    injection heq with e1 e2
    exact hne (e1 ▸ hev3)
  | cons a l₁ =>
    injection heq with e1 e2
    subst e1
    exact (hall h (by simp)).2 hdec

lemma scanSpecActive_cons_enabled (accepted : Int) (dtype darea enabled disabled : String)
    (h : HistItem) (rest : List HistItem) (hwin : inWindow accepted h)
    (hm : histMatches dtype darea h) (hev : h.event_type = enabled) :
    scanSpecActive accepted dtype darea enabled disabled (h :: rest) :=
  ⟨[], h, rest, rfl, hwin, hm, hev, by simp⟩

lemma scanHistory_true_iff (accepted : Int) (dtype darea enabled disabled : String)
    (hne : enabled ≠ disabled) (l : List HistItem) :
    scanHistory accepted dtype darea enabled disabled l = true ↔
      scanSpecActive accepted dtype darea enabled disabled l := by
  induction l with
  | nil =>
    simp only [scanHistory, Bool.false_eq_true, false_iff]
    exact scanSpecActive_nil accepted dtype darea enabled disabled
  | cons h rest ih =>
    simp only [scanHistory]
    by_cases h1 : h.time < accepted
    · rw [if_pos h1]
      simp only [Bool.false_eq_true, false_iff]
      exact scanSpecActive_cons_old accepted dtype darea enabled disabled h rest h1
    · rw [if_neg h1]
      by_cases h2 : h.type ≠ dtype
      · rw [if_pos h2, ih,
          scanSpecActive_cons_skip accepted dtype darea enabled disabled h rest h1
            (fun hd => h2 hd.2.1.1)]
      · rw [if_neg h2]
        push_neg at h2
        by_cases h3 : h.area ≠ darea
        · rw [if_pos h3, ih,
            scanSpecActive_cons_skip accepted dtype darea enabled disabled h rest h1
              (fun hd => h3 hd.2.1.2)]
        · rw [if_neg h3]
          push_neg at h3
          by_cases h4 : h.event_type = disabled
          · rw [if_pos h4]
            simp only [Bool.false_eq_true, false_iff]
            exact scanSpecActive_cons_break accepted dtype darea enabled disabled h rest
              ⟨h1, ⟨h2, h3⟩, Or.inr h4⟩ (fun he => hne (he.symm.trans h4))
          · rw [if_neg h4]
            by_cases h5 : h.event_type = enabled
            · rw [if_pos h5]
              simp only [true_iff]
              exact scanSpecActive_cons_enabled accepted dtype darea enabled disabled h rest
                h1 ⟨h2, h3⟩ h5
            · rw [if_neg h5, ih,
                scanSpecActive_cons_skip accepted dtype darea enabled disabled h rest h1
                  (fun hd => hd.2.2.elim h5 h4)]

/-- Claim C2: the history scan returns active exactly when, scanning the
entries in order, the first entry that is within the window, matches the
device pair of type and area, and carries the on or off event code,
carries the on code; it is inactive when that first decisive entry
carries the off code, when the scan reaches an entry older than the
window start, or when the log is exhausted, in particular on an empty
history. -/
theorem smoke_history_scan_characterization (device : Device) (updates : Updates)
    (enabled disabled : String) (minutes : Int) (hne : enabled ≠ disabled) :
    device_on_in_updates_history device updates enabled disabled minutes = true ↔
      scanSpecActive (updates.update_timestamp - 60 * minutes) device.type device.area
        enabled disabled updates.history := by
  rw [device_on_in_updates_history]
  exact scanHistory_true_iff _ _ _ _ _ hne _

/-- A concrete smoke detector device used by the witnesses. -/
def wSmokeDev : Device :=
  { type := "device_type.smoke_detector", area := "1", address := "RF:2",
    status1 := "", minigw_lock_status := none, status_temp := "", extra := [],
    _state := none, _state2 := none }

/-- A concrete history entry one minute old used by the C2 witness. -/
def wHist1 : HistItem :=
  { time := -60, type := "device_type.smoke_detector", area := "1", event_type := "551" }

/-- A concrete history entry exactly at the window start, for C10. -/
def wHistBoundary : HistItem :=
  { time := -180, type := "device_type.smoke_detector", area := "1", event_type := "551" }

/-- A concrete raw bundle whose history holds one recent on event. -/
def wSmokeUpd : Updates :=
  { arm_status := "armed", cycle := { device_status := [] }, status := "ok",
    online := "1", panel_info := "p", history := [wHist1], update_timestamp := 0 }

/-- A concrete raw bundle whose single history entry sits exactly on the
window boundary. -/
def wSmokeUpdBoundary : Updates :=
  { arm_status := "armed", cycle := { device_status := [] }, status := "ok",
    online := "1", panel_info := "p", history := [wHistBoundary], update_timestamp := 0 }

/-- Witness for claim C2 at a concrete one-entry history. -/
theorem smoke_history_scan_characterization_witness :
    ("551" : String) ≠ "552" ∧
    (device_on_in_updates_history wSmokeDev wSmokeUpd "551" "552" 3 = true ↔
      scanSpecActive (wSmokeUpd.update_timestamp - 60 * 3) wSmokeDev.type wSmokeDev.area
        "551" "552" wSmokeUpd.history) :=
  ⟨by decide, smoke_history_scan_characterization wSmokeDev wSmokeUpd "551" "552" 3 (by decide)⟩

/-- Claim C10: the window boundary is inclusive: an entry whose parsed
timestamp equals the reference timestamp minus the window does not stop
the scan at the window check, and when it matches the device it is the
decisive entry, giving active on the enabled code and inactive on the
disabled code. -/
theorem smoke_window_boundary_inclusive (device : Device) (updates : Updates)
    (enabled disabled : String) (minutes : Int) (h : HistItem) (rest : List HistItem)
    (hhist : updates.history = h :: rest)
    (htime : h.time = updates.update_timestamp - 60 * minutes)
    (htype : h.type = device.type) (harea : h.area = device.area)
    (hev : h.event_type = enabled ∨ h.event_type = disabled) :
    device_on_in_updates_history device updates enabled disabled minutes = true ↔
      (h.event_type ≠ disabled ∧ h.event_type = enabled) := by
  rw [device_on_in_updates_history, hhist]
  simp only [scanHistory]
  rw [if_neg (by rw [htime]; exact lt_irrefl _)]
  rw [if_neg (by simp [htype])]
  rw [if_neg (by simp [harea])]
  by_cases h4 : h.event_type = disabled
  · rw [if_pos h4]
    simp [h4]
  · rw [if_neg h4]
    rcases hev with h5 | h5
    · rw [if_pos h5]
      exact iff_of_true rfl ⟨h4, h5⟩
    · exact absurd h5 h4

/-- Witness for claim C10 at a concrete boundary entry. -/
theorem smoke_window_boundary_inclusive_witness :
    device_on_in_updates_history wSmokeDev wSmokeUpdBoundary "551" "552" 3 = true ↔
      (wHistBoundary.event_type ≠ "552" ∧ wHistBoundary.event_type = "551") :=
  smoke_window_boundary_inclusive wSmokeDev wSmokeUpdBoundary "551" "552" 3
    wHistBoundary [] rfl (by decide) rfl rfl (Or.inl rfl)

/-- A concrete lock device with bitmask 0x11 and the lock marker. -/
def wLockDev : Device :=
  { type := "device_type.door_lock", area := "1", address := "RF:3",
    status1 := "device_status.lock", minigw_lock_status := some "11",
    status_temp := "", extra := [], _state := none, _state2 := none }

/-- Witness for claim C1 at the concrete lock device. -/
theorem lock_decision_table_correct_witness :
    wLockDev.type = "device_type.door_lock" ∧
    pyIntHex (pyStrOrZero wLockDev.minigw_lock_status) = some 17 ∧
    (lockDerived wLockDev.minigw_lock_status wLockDev.status1 =
       Except.ok (lockDecisionTable 17 wLockDev.status1) ∧
     processDevice "551" "552" wSmokeUpd wLockDev =
       Except.ok ({ wLockDev with
         _state := some (StateV.str (lockDecisionTable 17 wLockDev.status1).1),
         _state2 := match (lockDecisionTable 17 wLockDev.status1).2 with
           | some t => some t
           | none => wLockDev._state2 }, some Cat.lock)) :=
  ⟨rfl, by decide,
    lock_decision_table_correct wLockDev 17 "551" "552" wSmokeUpd rfl (by decide)⟩

/-- A concrete closed door contact device. -/
def wContactDev : Device :=
  { type := "device_type.door_contact", area := "1", address := "RF:1",
    status1 := "device_status.dc_close", minigw_lock_status := none,
    status_temp := "", extra := [], _state := none, _state2 := none }

/-- Witness for claim C8 at the concrete contact device. -/
theorem contact_state_correct_witness :
    wContactDev.type = "device_type.door_contact" ∧
    (classifyContact wContactDev =
       { wContactDev with _state := some (StateV.str (contactStateTable wContactDev.status1)) } ∧
     processDevice "551" "552" wSmokeUpd wContactDev =
       Except.ok ({ wContactDev with
         _state := some (StateV.str (contactStateTable wContactDev.status1)) },
         some Cat.door_window)) :=
  ⟨rfl, contact_state_correct wContactDev "551" "552" wSmokeUpd rfl⟩

lemma get_updates_calls_classification (armResult : Except ClientError String)
    (getAllResult : Except ClientError AllData) :
    (get_updates_calls armResult getAllResult = Except.error FetchFailure.configEntryAuthFailed ↔
       callsFirstError armResult getAllResult = some ClientError.authenticationError) ∧
    (get_updates_calls armResult getAllResult = Except.error FetchFailure.updateFailed ↔
       callsFirstError armResult getAllResult = some ClientError.yaleBaseError) ∧
    ((∃ u, get_updates_calls armResult getAllResult = Except.ok u) ↔
       callsFirstError armResult getAllResult = none) := by
  rcases armResult with e | arm
  · rcases e <;> simp [get_updates_calls, callsFirstError]
  · rcases getAllResult with e | data
    · rcases e <;> simp [get_updates_calls, callsFirstError]
    · refine ⟨by simp [get_updates_calls, callsFirstError],
        by simp [get_updates_calls, callsFirstError], ?_⟩
      simp only [get_updates_calls, callsFirstError]
      exact iff_of_true ⟨_, rfl⟩ trivial

/-- Claim C3: the only failures that escape the fetch step are the two
classified kinds: an AuthenticationError from the client library at
session construction or during the data calls surfaces as
ConfigEntryAuthFailed, any other client-library error surfaces as
UpdateFailed, and get_updates otherwise returns a bundle, so no other
exception escapes. -/
theorem get_updates_error_classification (yale : Option YaleSmartAlarmClient)
    (constructResult : Except ClientError YaleSmartAlarmClient)
    (armResult : Except ClientError String)
    (getAllResult : Except ClientError AllData) :
    (get_updates yale constructResult armResult getAllResult =
        Except.error FetchFailure.configEntryAuthFailed ↔
      firstClientError yale constructResult armResult getAllResult =
        some ClientError.authenticationError) ∧
    (get_updates yale constructResult armResult getAllResult =
        Except.error FetchFailure.updateFailed ↔
      firstClientError yale constructResult armResult getAllResult =
        some ClientError.yaleBaseError) ∧
    ((∃ u, get_updates yale constructResult armResult getAllResult = Except.ok u) ↔
      firstClientError yale constructResult armResult getAllResult = none) := by
  rcases yale with _ | y
  · rcases constructResult with e | c
    · rcases e <;> simp [get_updates, firstClientError]
    · simpa [get_updates, firstClientError] using
        get_updates_calls_classification armResult getAllResult
  · simpa [get_updates, firstClientError] using
      get_updates_calls_classification armResult getAllResult

lemma normalizeUpdates_ok_shape (enabled disabled : String) (u : Updates)
    (s : Snapshot) (u2 : Updates)
    (hok : normalizeUpdates enabled disabled u = Except.ok (s, u2)) :
    ∃ ps, normalizeLoop enabled disabled u u.cycle.device_status = Except.ok ps ∧
      s = { alarm := u.arm_status,
            locks := catFilter Cat.lock ps,
            door_windows := catFilter Cat.door_window ps,
            temperature_sensors := catFilter Cat.temperature ps,
            smoke_sensors := catFilter Cat.smoke ps,
            status := u.status,
            online := u.online,
            door_sensor_map := buildMap (catFilter Cat.door_window ps),
            lock_map := buildMap (catFilter Cat.lock ps),
            temperature_map := buildMap (catFilter Cat.temperature ps),
            smoke_map := buildMap (catFilter Cat.smoke ps),
            panel_info := u.panel_info } ∧
      u2 = { u with cycle := { device_status := ps.map Prod.fst } } := by
  rw [normalizeUpdates] at hok
  rcases hloop : normalizeLoop enabled disabled u u.cycle.device_status with e | ps <;>
    rw [hloop] at hok
  · cases hok
  · simp only [Except.ok.injEq, Prod.mk.injEq] at hok
    exact ⟨ps, rfl, hok.1.symm, hok.2.symm⟩

lemma normalizeLoop_mem (enabled disabled : String) (u : Updates) :
    ∀ (l : List Device) (ps : List (Device × Option Cat)),
      normalizeLoop enabled disabled u l = Except.ok ps →
      ∀ p ∈ ps, ∃ d ∈ l, processDevice enabled disabled u d = Except.ok p := by
  intro l
  induction l with
  | nil =>
    intro ps h p hp
    simp only [normalizeLoop, Except.ok.injEq] at h
    subst h
    cases hp
  | cons d rest ih =>
    intro ps h p hp
    simp only [normalizeLoop] at h
    rcases hd : processDevice enabled disabled u d with e | p0 <;> rw [hd] at h
    · cases h
    · rcases hr : normalizeLoop enabled disabled u rest with e | ps0 <;> rw [hr] at h
      · cases h
      · injection h with h
        subst h
        rcases List.mem_cons.mp hp with rfl | hp2
        · exact ⟨d, List.mem_cons_self d rest, hd⟩
        · obtain ⟨d2, hd2, hpd2⟩ := ih ps0 hr p hp2
          exact ⟨d2, List.mem_cons_of_mem d hd2, hpd2⟩

lemma dictInsert_keys_of_mem (m : List (String × StateV)) (k : String) (v : StateV) :
    dictKeys (m.map (fun p => if p.1 = k then (k, v) else p)) = dictKeys m := by
  rw [dictKeys, dictKeys, List.map_map]
  apply List.map_congr_left
  intro p hp
  by_cases h : p.1 = k
  · simp [h]
  · simp [h]

lemma dictInsert_mem_keys (m : List (String × StateV)) (k a : String) (v : StateV) :
    a ∈ dictKeys (dictInsert m k v) ↔ a ∈ dictKeys m ∨ a = k := by
  rw [dictInsert]
  by_cases hk : m.any (fun p => p.1 = k)
  · rw [if_pos hk, dictInsert_keys_of_mem]
    constructor
    · exact Or.inl
    · rintro (h | rfl)
      · exact h
      · rw [List.any_eq_true] at hk
        obtain ⟨p, hp, hpk⟩ := hk
        rw [dictKeys, List.mem_map]
        exact ⟨p, hp, by simpa using hpk⟩
  · rw [if_neg hk, dictKeys, List.map_append]
    simp [dictKeys]

lemma dictInsert_keys_nodup (m : List (String × StateV)) (k : String) (v : StateV)
    (h : (dictKeys m).Nodup) : (dictKeys (dictInsert m k v)).Nodup := by
  rw [dictInsert]
  by_cases hk : m.any (fun p => p.1 = k)
  · rw [if_pos hk, dictInsert_keys_of_mem]
    exact h
  · rw [if_neg hk, dictKeys, List.map_append]
    rw [List.nodup_append]
    refine ⟨h, by simp, ?_⟩
    intro a ha hb
    simp only [List.map_cons, List.map_nil, List.mem_singleton] at hb
    subst hb
    rw [List.any_eq_true] at hk
    rw [List.mem_map] at ha
    obtain ⟨p, hp, hpk⟩ := ha
    exact hk ⟨p, hp, by simpa using hpk⟩

lemma buildMap_foldl_mem_keys (l : List Device) :
    ∀ (m : List (String × StateV)) (a : String),
      a ∈ dictKeys (l.foldl (fun m d => dictInsert m d.address (stateOf d)) m) ↔
        a ∈ dictKeys m ∨ ∃ d ∈ l, d.address = a := by
  induction l with
  | nil => intro m a; simp
  | cons d rest ih =>
    intro m a
    rw [List.foldl_cons, ih, dictInsert_mem_keys]
    constructor
    · rintro ((h | h) | ⟨d2, hd2, ha⟩)
      · exact Or.inl h
      · exact Or.inr ⟨d, by simp, h.symm⟩
      · exact Or.inr ⟨d2, by simp [hd2], ha⟩
    · rintro (h | ⟨d2, hd2, ha⟩)
      · exact Or.inl (Or.inl h)
      · rcases List.mem_cons.mp hd2 with rfl | hd2
        · exact Or.inl (Or.inr ha.symm)
        · exact Or.inr ⟨d2, hd2, ha⟩

lemma buildMap_mem_keys (l : List Device) (a : String) :
    a ∈ dictKeys (buildMap l) ↔ ∃ d ∈ l, d.address = a := by
  rw [buildMap, buildMap_foldl_mem_keys]
  simp [dictKeys]

lemma buildMap_foldl_nodup (l : List Device) :
    ∀ m, (dictKeys m).Nodup →
      (dictKeys (l.foldl (fun m d => dictInsert m d.address (stateOf d)) m)).Nodup := by
  induction l with
  | nil => intro m h; simpa using h
  | cons d rest ih =>
    intro m h
    rw [List.foldl_cons]
    exact ih _ (dictInsert_keys_nodup _ _ _ h)

lemma buildMap_keys_nodup (l : List Device) : (dictKeys (buildMap l)).Nodup :=
  buildMap_foldl_nodup l [] (by simp [dictKeys])

lemma dictInsert_mem (m : List (String × StateV)) (k : String) (v : StateV)
    (p : String × StateV) (hp : p ∈ dictInsert m k v) : p ∈ m ∨ p = (k, v) := by
  rw [dictInsert] at hp
  by_cases hk : m.any (fun q => q.1 = k)
  · rw [if_pos hk] at hp
    obtain ⟨q, hq, hqe⟩ := List.mem_map.mp hp
    by_cases h : q.1 = k
    · right
      rw [if_pos h] at hqe
      exact hqe.symm
    · left
      rw [if_neg h] at hqe
      exact hqe ▸ hq
  · rw [if_neg hk] at hp
    rcases List.mem_append.mp hp with h | h
    · exact Or.inl h
    · right
      simpa using h

lemma buildMap_foldl_mem (l : List Device) :
    ∀ m (p : String × StateV), p ∈ l.foldl (fun m d => dictInsert m d.address (stateOf d)) m →
      p ∈ m ∨ ∃ d ∈ l, p = (d.address, stateOf d) := by
  induction l with
  | nil =>
    intro m p hp
    exact Or.inl (by simpa using hp)
  | cons d rest ih =>
    intro m p hp
    rw [List.foldl_cons] at hp
    rcases ih _ p hp with h | ⟨d2, hd2, he⟩
    · rcases dictInsert_mem _ _ _ _ h with h | h
      · exact Or.inl h
      · exact Or.inr ⟨d, by simp, h⟩
    · exact Or.inr ⟨d2, by simp [hd2], he⟩

lemma buildMap_mem (l : List Device) (p : String × StateV) (hp : p ∈ buildMap l) :
    ∃ d ∈ l, p = (d.address, stateOf d) := by
  rcases buildMap_foldl_mem l [] p hp with h | h
  · cases h
  · exact h

lemma classifyLock_frame (d d2 : Device) (h : classifyLock d = Except.ok d2) :
    d2.type = d.type ∧ d2.area = d.area ∧ d2.address = d.address ∧
    d2.status1 = d.status1 ∧ d2.minigw_lock_status = d.minigw_lock_status ∧
    d2.status_temp = d.status_temp ∧ d2.extra = d.extra ∧
    ∃ sv, d2._state = some sv := by
  rw [classifyLock] at h
  rcases hld : lockDerived d.minigw_lock_status d.status1 with e | p <;> rw [hld] at h
  · cases h
  · injection h with h
    subst h
    exact ⟨rfl, rfl, rfl, rfl, rfl, rfl, rfl, _, rfl⟩

lemma classifyContact_frame (d : Device) :
    (classifyContact d).type = d.type ∧ (classifyContact d).area = d.area ∧
    (classifyContact d).address = d.address ∧ (classifyContact d).status1 = d.status1 ∧
    (classifyContact d).minigw_lock_status = d.minigw_lock_status ∧
    (classifyContact d).status_temp = d.status_temp ∧
    (classifyContact d).extra = d.extra ∧
    ∃ sv, (classifyContact d)._state = some sv := by
  rw [classifyContact]
  split_ifs <;> exact ⟨rfl, rfl, rfl, rfl, rfl, rfl, rfl, _, rfl⟩

lemma classifyTemperature_frame (d d2 : Device) (h : classifyTemperature d = Except.ok d2) :
    d2.type = d.type ∧ d2.area = d.area ∧ d2.address = d.address ∧
    d2.status1 = d.status1 ∧ d2.minigw_lock_status = d.minigw_lock_status ∧
    d2.status_temp = d.status_temp ∧ d2.extra = d.extra ∧
    ∃ sv, d2._state = some sv := by
  rw [classifyTemperature] at h
  rcases hq : pyFloat d.status_temp with _ | q <;> rw [hq] at h
  · cases h
  · injection h with h
    subst h
    exact ⟨rfl, rfl, rfl, rfl, rfl, rfl, rfl, _, rfl⟩

lemma classifySmoke_frame (enabled disabled : String) (u : Updates) (d : Device) :
    (classifySmoke enabled disabled u d).type = d.type ∧
    (classifySmoke enabled disabled u d).area = d.area ∧
    (classifySmoke enabled disabled u d).address = d.address ∧
    (classifySmoke enabled disabled u d).status1 = d.status1 ∧
    (classifySmoke enabled disabled u d).minigw_lock_status = d.minigw_lock_status ∧
    (classifySmoke enabled disabled u d).status_temp = d.status_temp ∧
    (classifySmoke enabled disabled u d).extra = d.extra ∧
    ∃ sv, (classifySmoke enabled disabled u d)._state = some sv := by
  rw [classifySmoke]
  split_ifs <;> exact ⟨rfl, rfl, rfl, rfl, rfl, rfl, rfl, _, rfl⟩

lemma processDevice_ok_spec (enabled disabled : String) (u : Updates) (d d2 : Device)
    (c : Option Cat) (h : processDevice enabled disabled u d = Except.ok (d2, c)) :
    (d2.type = d.type ∧ d2.area = d.area ∧ d2.address = d.address ∧
     d2.status1 = d.status1 ∧ d2.minigw_lock_status = d.minigw_lock_status ∧
     d2.status_temp = d.status_temp ∧ d2.extra = d.extra) ∧
    (∀ cc, c = some cc → d.type = catTag cc ∧ ∃ sv, d2._state = some sv) := by
  rw [processDevice] at h
  split_ifs at h with h1 h2 h3 h4
  · rcases hl : classifyLock d with e | dl <;> rw [hl] at h
    · cases h
    · injection h with h
      injection h with ha hb
      subst ha
      subst hb
      obtain ⟨f1, f2, f3, f4, f5, f6, f7, hs⟩ := classifyLock_frame d dl hl
      refine ⟨⟨f1, f2, f3, f4, f5, f6, f7⟩, ?_⟩
      intro cc hcc
      injection hcc with hc
      subst hc
      exact ⟨h1, hs⟩
  · injection h with h
    injection h with ha hb
    subst ha
    subst hb
    obtain ⟨f1, f2, f3, f4, f5, f6, f7, hs⟩ := classifyContact_frame d
    refine ⟨⟨f1, f2, f3, f4, f5, f6, f7⟩, ?_⟩
    intro cc hcc
    injection hcc with hc
    subst hc
    exact ⟨h2, hs⟩
  · rcases ht : classifyTemperature d with e | dt <;> rw [ht] at h
    · cases h
    · injection h with h
      injection h with ha hb
      subst ha
      subst hb
      obtain ⟨f1, f2, f3, f4, f5, f6, f7, hs⟩ := classifyTemperature_frame d dt ht
      refine ⟨⟨f1, f2, f3, f4, f5, f6, f7⟩, ?_⟩
      intro cc hcc
      injection hcc with hc
      subst hc
      exact ⟨h3, hs⟩
  · injection h with h
    injection h with ha hb
    subst ha
    subst hb
    obtain ⟨f1, f2, f3, f4, f5, f6, f7, hs⟩ := classifySmoke_frame enabled disabled u d
    refine ⟨⟨f1, f2, f3, f4, f5, f6, f7⟩, ?_⟩
    intro cc hcc
    injection hcc with hc
    subst hc
    exact ⟨h4, hs⟩
  · injection h with h
    injection h with ha hb
    subst ha
    subst hb
    refine ⟨⟨rfl, rfl, rfl, rfl, rfl, rfl, rfl⟩, ?_⟩
    intro cc hcc
    cases hcc

lemma catFilter_mem (c : Cat) (ps : List (Device × Option Cat)) (d2 : Device)
    (hd2 : d2 ∈ catFilter c ps) : (d2, some c) ∈ ps := by
  rw [catFilter] at hd2
  obtain ⟨p, hp, hpe⟩ := List.mem_filterMap.mp hd2
  by_cases h : p.2 = some c
  · rw [if_pos h] at hpe
    injection hpe with hpe
    have : p = (d2, some c) := by
      rcases p with ⟨a, b⟩
      simp only at h hpe
      rw [h, hpe]
    exact this ▸ hp
  · rw [if_neg h] at hpe
    cases hpe

/-- Claim C5: in every snapshot the normalizer produces, each category
map has exactly the addresses of that category list as keys: an address
is a key exactly when some device of the list carries it, and the key
list has no duplicates, so each address appears exactly once. -/
theorem snapshot_map_list_consistency (enabled disabled : String) (u : Updates)
    (s : Snapshot) (u2 : Updates)
    (hok : normalizeUpdates enabled disabled u = Except.ok (s, u2)) :
    ((∀ a, (∃ d ∈ s.locks, d.address = a) ↔ a ∈ dictKeys s.lock_map) ∧
      (dictKeys s.lock_map).Nodup) ∧
    ((∀ a, (∃ d ∈ s.door_windows, d.address = a) ↔ a ∈ dictKeys s.door_sensor_map) ∧
      (dictKeys s.door_sensor_map).Nodup) ∧
    ((∀ a, (∃ d ∈ s.temperature_sensors, d.address = a) ↔ a ∈ dictKeys s.temperature_map) ∧
      (dictKeys s.temperature_map).Nodup) ∧
    ((∀ a, (∃ d ∈ s.smoke_sensors, d.address = a) ↔ a ∈ dictKeys s.smoke_map) ∧
      (dictKeys s.smoke_map).Nodup) := by
  obtain ⟨ps, hloop, hs, hu2⟩ := normalizeUpdates_ok_shape enabled disabled u s u2 hok
  subst hs
  exact
    ⟨⟨fun a => (buildMap_mem_keys (catFilter Cat.lock ps) a).symm,
      buildMap_keys_nodup (catFilter Cat.lock ps)⟩,
     ⟨fun a => (buildMap_mem_keys (catFilter Cat.door_window ps) a).symm,
      buildMap_keys_nodup (catFilter Cat.door_window ps)⟩,
     ⟨fun a => (buildMap_mem_keys (catFilter Cat.temperature ps) a).symm,
      buildMap_keys_nodup (catFilter Cat.temperature ps)⟩,
     ⟨fun a => (buildMap_mem_keys (catFilter Cat.smoke ps) a).symm,
      buildMap_keys_nodup (catFilter Cat.smoke ps)⟩⟩

/-- The concrete one-contact bundle used by several witnesses. -/
def wUpdC : Updates :=
  { arm_status := "armed", cycle := { device_status := [wContactDev] },
    status := "ok", online := "1", panel_info := "p", history := [],
    update_timestamp := 0 }

/-- The contact device as mutated by the normalizer. -/
def wContactDev2 : Device :=
  { wContactDev with _state := some (StateV.str "closed") }

/-- The snapshot the normalizer produces on the concrete bundle. -/
def wSnapC : Snapshot :=
  { alarm := "armed", locks := [], door_windows := [wContactDev2],
    temperature_sensors := [], smoke_sensors := [], status := "ok", online := "1",
    door_sensor_map := [("RF:1", StateV.str "closed")], lock_map := [],
    temperature_map := [], smoke_map := [], panel_info := "p" }

/-- The concrete bundle as left after the in-place mutation. -/
def wUpdC2 : Updates :=
  { wUpdC with cycle := { device_status := [wContactDev2] } }

/-- Witness for claim C5 at the concrete one-device bundle. -/
theorem snapshot_map_list_consistency_witness :
    normalizeUpdates "551" "552" wUpdC = Except.ok (wSnapC, wUpdC2) ∧
    (((∀ a, (∃ d ∈ wSnapC.locks, d.address = a) ↔ a ∈ dictKeys wSnapC.lock_map) ∧
       (dictKeys wSnapC.lock_map).Nodup) ∧
     ((∀ a, (∃ d ∈ wSnapC.door_windows, d.address = a) ↔ a ∈ dictKeys wSnapC.door_sensor_map) ∧
       (dictKeys wSnapC.door_sensor_map).Nodup) ∧
     ((∀ a, (∃ d ∈ wSnapC.temperature_sensors, d.address = a) ↔
         a ∈ dictKeys wSnapC.temperature_map) ∧
       (dictKeys wSnapC.temperature_map).Nodup) ∧
     ((∀ a, (∃ d ∈ wSnapC.smoke_sensors, d.address = a) ↔ a ∈ dictKeys wSnapC.smoke_map) ∧
       (dictKeys wSnapC.smoke_map).Nodup)) :=
  ⟨rfl, snapshot_map_list_consistency "551" "552" wUpdC wSnapC wUpdC2 rfl⟩

lemma catFilter_member_spec (enabled disabled : String) (u : Updates)
    (ps : List (Device × Option Cat))
    (hloop : normalizeLoop enabled disabled u u.cycle.device_status = Except.ok ps)
    (c : Cat) (d2 : Device) (hd2 : d2 ∈ catFilter c ps) :
    d2._state.isSome = true ∧ d2.type = catTag c := by
  have hp := catFilter_mem c ps d2 hd2
  obtain ⟨d, hd, hpd⟩ := normalizeLoop_mem enabled disabled u _ ps hloop (d2, some c) hp
  obtain ⟨frame, hcat⟩ := processDevice_ok_spec enabled disabled u d d2 (some c) hpd
  obtain ⟨htag, sv, hsv⟩ := hcat c rfl
  exact ⟨by rw [hsv]; rfl, frame.1.trans htag⟩

/-- Claim C6: in every snapshot the normalizer produces, every device of
the four category lists has its _state set and carries the type tag of
its category, a device of unrecognized type belongs to none of the four
lists, and every map entry comes from a device of the matching list, so
unrecognized devices contribute to no list and no map. -/
theorem snapshot_states_set_and_unrecognized_dropped (enabled disabled : String)
    (u : Updates) (s : Snapshot) (u2 : Updates)
    (hok : normalizeUpdates enabled disabled u = Except.ok (s, u2)) :
    (∀ d ∈ s.locks, d._state.isSome = true ∧ d.type = "device_type.door_lock") ∧
    (∀ d ∈ s.door_windows, d._state.isSome = true ∧ d.type = "device_type.door_contact") ∧
    (∀ d ∈ s.temperature_sensors,
      d._state.isSome = true ∧ d.type = "device_type.temperature_sensor") ∧
    (∀ d ∈ s.smoke_sensors, d._state.isSome = true ∧ d.type = "device_type.smoke_detector") ∧
    (∀ d : Device, d.type ≠ "device_type.door_lock" → d.type ≠ "device_type.door_contact" →
      d.type ≠ "device_type.temperature_sensor" → d.type ≠ "device_type.smoke_detector" →
      d ∉ s.locks ∧ d ∉ s.door_windows ∧ d ∉ s.temperature_sensors ∧ d ∉ s.smoke_sensors) ∧
    (∀ p ∈ s.lock_map, ∃ d ∈ s.locks, p = (d.address, stateOf d)) ∧
    (∀ p ∈ s.door_sensor_map, ∃ d ∈ s.door_windows, p = (d.address, stateOf d)) ∧
    (∀ p ∈ s.temperature_map, ∃ d ∈ s.temperature_sensors, p = (d.address, stateOf d)) ∧
    (∀ p ∈ s.smoke_map, ∃ d ∈ s.smoke_sensors, p = (d.address, stateOf d)) := by
  obtain ⟨ps, hloop, hs, hu2⟩ := normalizeUpdates_ok_shape enabled disabled u s u2 hok
  subst hs
  refine ⟨fun d hd => catFilter_member_spec enabled disabled u ps hloop Cat.lock d hd,
    fun d hd => catFilter_member_spec enabled disabled u ps hloop Cat.door_window d hd,
    fun d hd => catFilter_member_spec enabled disabled u ps hloop Cat.temperature d hd,
    fun d hd => catFilter_member_spec enabled disabled u ps hloop Cat.smoke d hd,
    ?_,
    fun p hp => buildMap_mem (catFilter Cat.lock ps) p hp,
    fun p hp => buildMap_mem (catFilter Cat.door_window ps) p hp,
    fun p hp => buildMap_mem (catFilter Cat.temperature ps) p hp,
    fun p hp => buildMap_mem (catFilter Cat.smoke ps) p hp⟩
  intro d t1 t2 t3 t4
  refine ⟨fun hd => ?_, fun hd => ?_, fun hd => ?_, fun hd => ?_⟩
  · exact t1 (catFilter_member_spec enabled disabled u ps hloop Cat.lock d hd).2
  · exact t2 (catFilter_member_spec enabled disabled u ps hloop Cat.door_window d hd).2
  · exact t3 (catFilter_member_spec enabled disabled u ps hloop Cat.temperature d hd).2
  · exact t4 (catFilter_member_spec enabled disabled u ps hloop Cat.smoke d hd).2

/-- Witness for claim C6 at the concrete one-device bundle. -/
theorem snapshot_states_set_and_unrecognized_dropped_witness :
    normalizeUpdates "551" "552" wUpdC = Except.ok (wSnapC, wUpdC2) ∧
    ((∀ d ∈ wSnapC.locks, d._state.isSome = true ∧ d.type = "device_type.door_lock") ∧
     (∀ d ∈ wSnapC.door_windows,
       d._state.isSome = true ∧ d.type = "device_type.door_contact") ∧
     (∀ d ∈ wSnapC.temperature_sensors,
       d._state.isSome = true ∧ d.type = "device_type.temperature_sensor") ∧
     (∀ d ∈ wSnapC.smoke_sensors,
       d._state.isSome = true ∧ d.type = "device_type.smoke_detector") ∧
     (∀ d : Device, d.type ≠ "device_type.door_lock" → d.type ≠ "device_type.door_contact" →
       d.type ≠ "device_type.temperature_sensor" → d.type ≠ "device_type.smoke_detector" →
       d ∉ wSnapC.locks ∧ d ∉ wSnapC.door_windows ∧ d ∉ wSnapC.temperature_sensors ∧
         d ∉ wSnapC.smoke_sensors) ∧
     (∀ p ∈ wSnapC.lock_map, ∃ d ∈ wSnapC.locks, p = (d.address, stateOf d)) ∧
     (∀ p ∈ wSnapC.door_sensor_map, ∃ d ∈ wSnapC.door_windows, p = (d.address, stateOf d)) ∧
     (∀ p ∈ wSnapC.temperature_map,
       ∃ d ∈ wSnapC.temperature_sensors, p = (d.address, stateOf d)) ∧
     (∀ p ∈ wSnapC.smoke_map, ∃ d ∈ wSnapC.smoke_sensors, p = (d.address, stateOf d))) :=
  ⟨rfl,
    snapshot_states_set_and_unrecognized_dropped "551" "552" wUpdC wSnapC wUpdC2 rfl⟩

/-- Claim C9: the normalizer only writes the derived _state and _state2
fields: every device of the four output lists agrees with a device of
the input list on every input field. -/
theorem normalizer_preserves_input_fields (enabled disabled : String) (u : Updates)
    (s : Snapshot) (u2 : Updates)
    (hok : normalizeUpdates enabled disabled u = Except.ok (s, u2)) (d2 : Device)
    (hmem : d2 ∈ s.locks ∨ d2 ∈ s.door_windows ∨ d2 ∈ s.temperature_sensors ∨
      d2 ∈ s.smoke_sensors) :
    ∃ d ∈ u.cycle.device_status, d2.type = d.type ∧ d2.area = d.area ∧
      d2.address = d.address ∧ d2.status1 = d.status1 ∧
      d2.minigw_lock_status = d.minigw_lock_status ∧ d2.status_temp = d.status_temp ∧
      d2.extra = d.extra := by
  obtain ⟨ps, hloop, hs, hu2⟩ := normalizeUpdates_ok_shape enabled disabled u s u2 hok
  subst hs
  have hp : ∃ c, (d2, some c) ∈ ps := by
    rcases hmem with h | h | h | h
    · exact ⟨Cat.lock, catFilter_mem _ _ _ h⟩
    · exact ⟨Cat.door_window, catFilter_mem _ _ _ h⟩
    · exact ⟨Cat.temperature, catFilter_mem _ _ _ h⟩
    · exact ⟨Cat.smoke, catFilter_mem _ _ _ h⟩
  obtain ⟨c, hp⟩ := hp
  obtain ⟨d, hd, hpd⟩ := normalizeLoop_mem enabled disabled u _ ps hloop (d2, some c) hp
  exact ⟨d, hd, (processDevice_ok_spec enabled disabled u d d2 (some c) hpd).1⟩

/-- Witness for claim C9 at the concrete contact device. -/
theorem normalizer_preserves_input_fields_witness :
    normalizeUpdates "551" "552" wUpdC = Except.ok (wSnapC, wUpdC2) ∧
    (wContactDev2 ∈ wSnapC.locks ∨ wContactDev2 ∈ wSnapC.door_windows ∨
      wContactDev2 ∈ wSnapC.temperature_sensors ∨ wContactDev2 ∈ wSnapC.smoke_sensors) ∧
    ∃ d ∈ wUpdC.cycle.device_status, wContactDev2.type = d.type ∧
      wContactDev2.area = d.area ∧ wContactDev2.address = d.address ∧
      wContactDev2.status1 = d.status1 ∧
      wContactDev2.minigw_lock_status = d.minigw_lock_status ∧
      wContactDev2.status_temp = d.status_temp ∧ wContactDev2.extra = d.extra :=
  ⟨rfl, Or.inr (Or.inl (by decide)),
    normalizer_preserves_input_fields "551" "552" wUpdC wSnapC wUpdC2 rfl
      wContactDev2 (Or.inr (Or.inl (by decide)))⟩

lemma classifyLock_stable (d d2 : Device) (h : classifyLock d = Except.ok d2) :
    classifyLock d2 = Except.ok d2 := by
  rw [classifyLock] at h
  rcases hld : lockDerived d.minigw_lock_status d.status1 with e | p <;> rw [hld] at h
  · cases h
  · injection h with h
    subst h
    rcases p with ⟨s1, s2⟩
    rcases s2 with _ | t <;> simp [classifyLock, hld]

lemma classifyContact_stable (d : Device) :
    classifyContact (classifyContact d) = classifyContact d := by
  by_cases h1 : strContains d.status1 "device_status.dc_close" = true <;>
    by_cases h2 : strContains d.status1 "device_status.dc_open" = true <;>
    simp [classifyContact, h1, h2]

lemma classifyTemperature_stable (d d2 : Device) (h : classifyTemperature d = Except.ok d2) :
    classifyTemperature d2 = Except.ok d2 := by
  rw [classifyTemperature] at h
  rcases hq : pyFloat d.status_temp with _ | q <;> rw [hq] at h
  · cases h
  · injection h with h
    subst h
    simp [classifyTemperature, hq]

lemma classifySmoke_stable (enabled disabled : String) (u u2 : Updates)
    (hh : u2.history = u.history) (ht : u2.update_timestamp = u.update_timestamp)
    (d : Device) :
    classifySmoke enabled disabled u2 (classifySmoke enabled disabled u d) =
      classifySmoke enabled disabled u d := by
  by_cases hon : device_on_in_updates_history d u enabled disabled 3 = true
  · have h1 : classifySmoke enabled disabled u d = { d with _state := some (StateV.str "on") } := by
      rw [classifySmoke, if_pos hon]
    have hc : device_on_in_updates_history { d with _state := some (StateV.str "on") }
        u2 enabled disabled 3 = true := by
      rw [device_on_in_updates_history, hh, ht]
      exact hon
    rw [h1, classifySmoke, if_pos hc]
  · have h1 : classifySmoke enabled disabled u d = { d with _state := some (StateV.str "off") } := by
      rw [classifySmoke, if_neg hon]
    have hc : ¬ device_on_in_updates_history { d with _state := some (StateV.str "off") }
        u2 enabled disabled 3 = true := by
      rw [device_on_in_updates_history, hh, ht]
      exact hon
    rw [h1, classifySmoke, if_neg hc]

lemma processDevice_stable (enabled disabled : String) (u u2 : Updates)
    (hh : u2.history = u.history) (ht : u2.update_timestamp = u.update_timestamp)
    (d d2 : Device) (c : Option Cat)
    (h : processDevice enabled disabled u d = Except.ok (d2, c)) :
    processDevice enabled disabled u2 d2 = Except.ok (d2, c) := by
  rw [processDevice] at h
  split_ifs at h with h1 h2 h3 h4
  · rcases hl : classifyLock d with e | dl <;> rw [hl] at h
    · cases h
    · injection h with h
      injection h with ha hb
      subst ha
      subst hb
      have hf := classifyLock_frame d dl hl
      rw [processDevice, if_pos (hf.1.trans h1), classifyLock_stable d dl hl]
  · injection h with h
    injection h with ha hb
    subst ha
    subst hb
    have hf := classifyContact_frame d
    rw [processDevice, if_neg (fun hc => h1 ((hf.1.symm).trans hc)),
      if_pos (hf.1.trans h2), classifyContact_stable d]
  · rcases htq : classifyTemperature d with e | dt <;> rw [htq] at h
    · cases h
    · injection h with h
      injection h with ha hb
      subst ha
      subst hb
      have hf := classifyTemperature_frame d dt htq
      rw [processDevice, if_neg (fun hc => h1 ((hf.1.symm).trans hc)),
        if_neg (fun hc => h2 ((hf.1.symm).trans hc)), if_pos (hf.1.trans h3),
        classifyTemperature_stable d dt htq]
  · injection h with h
    injection h with ha hb
    subst ha
    subst hb
    have hf := classifySmoke_frame enabled disabled u d
    rw [processDevice, if_neg (fun hc => h1 ((hf.1.symm).trans hc)),
      if_neg (fun hc => h2 ((hf.1.symm).trans hc)),
      if_neg (fun hc => h3 ((hf.1.symm).trans hc)), if_pos (hf.1.trans h4),
      classifySmoke_stable enabled disabled u u2 hh ht d]
  · injection h with h
    injection h with ha hb
    subst ha
    subst hb
    rw [processDevice, if_neg h1, if_neg h2, if_neg h3, if_neg h4]

lemma normalizeLoop_stable (enabled disabled : String) (u u2 : Updates)
    (hh : u2.history = u.history) (ht : u2.update_timestamp = u.update_timestamp) :
    ∀ (l : List Device) (ps : List (Device × Option Cat)),
      normalizeLoop enabled disabled u l = Except.ok ps →
      normalizeLoop enabled disabled u2 (ps.map Prod.fst) = Except.ok ps := by
  intro l
  induction l with
  | nil =>
    intro ps h
    simp only [normalizeLoop, Except.ok.injEq] at h
    subst h
    rfl
  | cons d rest ih =>
    intro ps h
    simp only [normalizeLoop] at h
    rcases hd : processDevice enabled disabled u d with e | p <;> rw [hd] at h
    · cases h
    · rcases hr : normalizeLoop enabled disabled u rest with e | ps0 <;> rw [hr] at h
      · cases h
      · injection h with h
        subst h
        rcases p with ⟨d2, c⟩
        simp only [List.map_cons, normalizeLoop]
        rw [processDevice_stable enabled disabled u u2 hh ht d d2 c hd, ih ps0 hr]

/-- Claim C7: normalization is idempotent: when normalization succeeds
on a bundle, running it again on the bundle as left by the first run,
in-place mutations included, produces the same snapshot and leaves the
bundle unchanged. -/
theorem normalize_idempotent (enabled disabled : String) (u : Updates)
    (s : Snapshot) (u2 : Updates)
    (hok : normalizeUpdates enabled disabled u = Except.ok (s, u2)) :
    normalizeUpdates enabled disabled u2 = Except.ok (s, u2) := by
  obtain ⟨ps, hloop, hs, hu2⟩ := normalizeUpdates_ok_shape enabled disabled u s u2 hok
  subst hs
  subst hu2
  rw [normalizeUpdates]
  rw [show ({ u with cycle := { device_status := ps.map Prod.fst } } : Updates).cycle.device_status
      = ps.map Prod.fst from rfl]
  rw [normalizeLoop_stable enabled disabled u
    { u with cycle := { device_status := ps.map Prod.fst } } rfl rfl
    u.cycle.device_status ps hloop]

/-- Witness for claim C7 at the concrete one-device bundle. -/
theorem normalize_idempotent_witness :
    normalizeUpdates "551" "552" wUpdC = Except.ok (wSnapC, wUpdC2) ∧
    normalizeUpdates "551" "552" wUpdC2 = Except.ok (wSnapC, wUpdC2) :=
  ⟨rfl, normalize_idempotent "551" "552" wUpdC wSnapC wUpdC2 rfl⟩

lemma normalizeLoop_temp_error (enabled disabled : String) (u : Updates) :
    ∀ l : List Device,
      (∃ d ∈ l, d.type = "device_type.temperature_sensor" ∧ pyFloat d.status_temp = none) →
      ∃ e, normalizeLoop enabled disabled u l = Except.error e := by
  intro l
  induction l with
  | nil =>
    rintro ⟨d, hd, -⟩
    cases hd
  | cons d0 rest ih =>
    rintro ⟨d, hd, htype, hparse⟩
    rcases List.mem_cons.mp hd with rfl | hd2
    · refine ⟨PyErr.valueError "could not convert string to float", ?_⟩
      simp only [normalizeLoop]
      rw [processDevice, if_neg (by rw [htype]; decide), if_neg (by rw [htype]; decide),
        if_pos htype, classifyTemperature, hparse]
    · simp only [normalizeLoop]
      rcases hd0 : processDevice enabled disabled u d0 with e | p
      · exact ⟨e, rfl⟩
      · obtain ⟨e, he⟩ := ih ⟨d, hd2, htype, hparse⟩
        exact ⟨e, by rw [he]⟩

/-- The Updates record get_updates builds from a successful pair of
client calls. -/
def updatesOf (arm : String) (data : AllData) : Updates :=
  { arm_status := arm, cycle := data.cycle, status := data.status, online := data.online,
    panel_info := data.panel_info, history := data.history,
    update_timestamp := data.token_time }

lemma get_updates_some_ok (y : YaleSmartAlarmClient)
    (constructResult : Except ClientError YaleSmartAlarmClient)
    (arm : String) (data : AllData) :
    get_updates (some y) constructResult (Except.ok arm) (Except.ok data) =
      Except.ok (updatesOf arm data) := rfl

/-- Claim C4, amended: when a temperature device of the bundle has an
unparseable temperature, the refresh cycle fails as a whole, no snapshot
is produced, but the failure escapes as the raw parse ValueError and is
not reclassified as the transient UpdateFailed kind. -/
theorem temperature_parse_failure_fails_whole_cycle
    (y : YaleSmartAlarmClient) (constructResult : Except ClientError YaleSmartAlarmClient)
    (arm : String) (data : AllData) (enabled disabled : String)
    (hbad : ∃ d ∈ data.cycle.device_status,
      d.type = "device_type.temperature_sensor" ∧ pyFloat d.status_temp = none) :
    ∃ e : PyErr,
      async_update_data (some y) constructResult (Except.ok arm) (Except.ok data)
          enabled disabled = Except.error (CycleError.pythonError e) ∧
      Except.error (CycleError.pythonError e) ≠
        (Except.error CycleError.updateFailed : Except CycleError (Snapshot × Updates)) := by
  obtain ⟨e, he⟩ := normalizeLoop_temp_error enabled disabled (updatesOf arm data)
    data.cycle.device_status hbad
  have hn : normalizeUpdates enabled disabled (updatesOf arm data) = Except.error e := by
    rw [normalizeUpdates]
    rw [show (updatesOf arm data).cycle.device_status = data.cycle.device_status from rfl, he]
  refine ⟨e, ?_, by intro h; injection h with h; cases h⟩
  show (match normalizeUpdates enabled disabled (updatesOf arm data) with
    | Except.error e2 =>
      (Except.error (CycleError.pythonError e2) : Except CycleError (Snapshot × Updates))
    | Except.ok r => Except.ok r) = Except.error (CycleError.pythonError e)
  rw [hn]

/-- A concrete temperature device whose temperature does not parse. -/
def wTempBadDev : Device :=
  { type := "device_type.temperature_sensor", area := "1", address := "RF:4",
    status1 := "", minigw_lock_status := none, status_temp := "abc", extra := [],
    _state := none, _state2 := none }

/-- A concrete session for the counterexample. -/
def wClient : YaleSmartAlarmClient := { username := "user", password := "pw" }

/-- A concrete client bundle holding the unparseable temperature device. -/
def wBadData : AllData :=
  { cycle := { device_status := [wTempBadDev] }, history := [], status := "ok",
    online := "1", panel_info := "p", token_time := 0 }

/-- Counterexample to claim C4 as stated: on this bundle the cycle does
fail as a whole, but the failure that escapes is the raw ValueError of
float(), not the transient UpdateFailed kind the claim names. -/
theorem temperature_parse_not_transient_counterexample :
    async_update_data (some wClient) (Except.ok wClient) (Except.ok "armed")
        (Except.ok wBadData) "551" "552" =
      Except.error (CycleError.pythonError
        (PyErr.valueError "could not convert string to float")) ∧
    async_update_data (some wClient) (Except.ok wClient) (Except.ok "armed")
        (Except.ok wBadData) "551" "552" ≠
      Except.error CycleError.updateFailed :=
  ⟨rfl, by intro h; injection h with h; cases h⟩

/-- Witness for the amended claim C4 at the concrete bundle. -/
theorem temperature_parse_failure_fails_whole_cycle_witness :
    (∃ d ∈ wBadData.cycle.device_status,
      d.type = "device_type.temperature_sensor" ∧ pyFloat d.status_temp = none) ∧
    ∃ e : PyErr,
      async_update_data (some wClient) (Except.ok wClient) (Except.ok "armed")
          (Except.ok wBadData) "551" "552" = Except.error (CycleError.pythonError e) ∧
      Except.error (CycleError.pythonError e) ≠
        (Except.error CycleError.updateFailed : Except CycleError (Snapshot × Updates)) :=
  ⟨⟨wTempBadDev, by decide, rfl, by decide⟩,
    temperature_parse_failure_fails_whole_cycle wClient (Except.ok wClient) "armed"
      wBadData "551" "552" ⟨wTempBadDev, by decide, rfl, by decide⟩⟩
